import Mathlib

/-!
# MarketMind prompt-routing façade: shallow embedding and verification

This file embeds the single source file of the repository (a FastAPI
application routing chat/campaign/pitch/lead-scoring/market-analysis
requests to two external language-model providers) into Lean and proves
the specified properties about it.

Modelling conventions:
* The two external providers are opaque in the source (network calls);
  they are modelled as oracles.  Provider A (Gemini) receives one combined
  prompt string; provider B (Groq) receives a structured call record
  (model identifier, role-tagged messages, max tokens, temperature).
  An oracle returns `Except String String`: `.error e` stands for the
  provider call raising an exception whose `str()` is `e`, `.ok r` for a
  successful completion `r`.
* JSON response bodies are association lists of field name to `Value`.
* `raise HTTPException(status_code=500, detail=str(e))` is modelled by
  returning `.error ⟨500, str e⟩`.
* Python ints are modelled as `Int`; the temperature literal `0.7` is the
  rational `7/10` (it is opaque configuration data, never computed with).
-/

set_option maxRecDepth 100000

namespace MarketMind

/-- A JSON value as produced by the endpoints: strings, integers, and
nested objects (used for the echoed lead). -/
inductive Value where
  | str : String → Value
  | int : Int → Value
  | obj : List (String × Value) → Value
deriving Repr

/-- A JSON response body: an ordered mapping from field names to values,
in the order the source constructs the Python dict. -/
abbrev Response := List (String × Value)

/-- `fastapi.HTTPException(status_code=..., detail=...)` as raised by the
`except` blocks of the endpoints. -/
structure HTTPException where
  status_code : Nat
  detail : String
deriving Repr

/-- `class ChatRequest(BaseModel): message: str; mode: str = "chat"`. -/
structure ChatRequest where
  message : String
  mode : String := "chat"
deriving Repr

/-- `class LeadRequest(BaseModel): company: str; industry: str;
interactions: int; budget_signal: str`. -/
structure LeadRequest where
  company : String
  industry : String
  interactions : Int
  budget_signal : String
deriving Repr

/-- `req.dict()` on a `LeadRequest`: the pydantic field dict, in
declaration order. -/
def LeadRequest.dict (req : LeadRequest) : Value :=
  .obj [("company", .str req.company),
        ("industry", .str req.industry),
        ("interactions", .int req.interactions),
        ("budget_signal", .str req.budget_signal)]

/-- `SYSTEM_PROMPTS["chat"]`. -/
def chatPrompt : String :=
  "You are MarketMind, an expert Generative AI assistant for sales and marketing teams.\nYou help with campaigns, lead insights, sales pitches, and market analysis.\nBe concise, actionable, and data-driven. Use emojis sparingly for readability."

/-- `SYSTEM_PROMPTS["campaign"]`. -/
def campaignPrompt : String :=
  "You are MarketMind\x27s Campaign Generator.\nGenerate a complete marketing campaign including:\n- A catchy campaign name & tagline\n- Email subject line and short body\n- One LinkedIn post\n- One Twitter/X post\n- Expected KPIs (reach, CTR estimate)\nBe specific, creative, and conversion-focused."

/-- `SYSTEM_PROMPTS["pitch"]`. -/
def pitchPrompt : String :=
  "You are MarketMind\x27s Sales Pitch Writer.\nCreate a personalized, compelling sales pitch tailored to the audience described.\nInclude: hook, pain point, solution, proof/ROI, and a clear call to action.\nKeep it under 200 words. Professional but human."

/-- `SYSTEM_PROMPTS["leads"]`. -/
def leadsPrompt : String :=
  "You are MarketMind\x27s Lead Intelligence Engine.\nAnalyze the lead details provided and return:\n- A lead score out of 100\n- Priority level (HOT / WARM / COLD)\n- 3 specific recommended next actions\n- Estimated deal close probability %\nBe analytical and direct."

/-- The module-level `SYSTEM_PROMPTS` dictionary, in source order.  Python
dict lookup `SYSTEM_PROMPTS.get(mode, default)` is modelled as
`(SYSTEM_PROMPTS.lookup mode).getD default`; the known-present indexings
`SYSTEM_PROMPTS["chat"]`, `["campaign"]`, `["pitch"]`, `["leads"]` are the
corresponding prompt constants (see `SYSTEM_PROMPTS_lookup_chat` etc.). -/
def SYSTEM_PROMPTS : List (String × String) :=
  [("chat", chatPrompt),
   ("campaign", campaignPrompt),
   ("pitch", pitchPrompt),
   ("leads", leadsPrompt)]

/-- Provider A (Gemini): `gemini_model.generate_content(full).text`,
an opaque call taking the single combined prompt string. -/
abbrev GeminiOracle := String → Except String String

/-- One call to provider B's chat-completion API, with every argument the
source passes to `groq_client.chat.completions.create`: the model
identifier, the role-tagged message list, `max_tokens`, `temperature`. -/
structure GroqCall where
  model : String
  messages : List (String × String)
  max_tokens : Nat
  temperature : ℚ
deriving Repr

/-- Provider B (Groq): `groq_client.chat.completions.create(...)
.choices[0].message.content`, an opaque call on a `GroqCall`. -/
abbrev GroqOracle := GroqCall → Except String String

/-- `def ask_gemini(prompt, system): full = f"{system}\n\nUser: {prompt}";
return gemini_model.generate_content(full).text`. -/
def ask_gemini (gemini : GeminiOracle) (prompt system : String) :
    Except String String :=
  gemini (system ++ "\n\nUser: " ++ prompt)

/-- `def ask_groq(prompt, system)`: a chat-completion call with model
`"llama3-8b-8192"`, a system message and a user message, `max_tokens=600`,
`temperature=0.7`. -/
def ask_groq (groq : GroqOracle) (prompt system : String) :
    Except String String :=
  groq ⟨"llama3-8b-8192", [("system", system), ("user", prompt)], 600, 7/10⟩

/-- `GET /`. -/
def root : Response :=
  [("status", .str "MarketMind API running ✅"), ("version", .str "1.0")]

/-- `POST /chat`: look up the system prompt by `req.mode` with the chat
prompt as fallback, call provider A, return reply/model/mode (mode echoes
the request); any provider exception becomes HTTP 500 with its message. -/
def chat (gemini : GeminiOracle) (req : ChatRequest) :
    Except HTTPException Response :=
  let system := (SYSTEM_PROMPTS.lookup req.mode).getD chatPrompt
  match ask_gemini gemini req.message system with
  | .ok reply =>
      .ok [("reply", .str reply),
           ("model", .str "gemini-1.5-flash"),
           ("mode", .str req.mode)]
  | .error e => .error ⟨500, e⟩

/-- `POST /campaign`: always the campaign prompt, provider B, fixed
metadata `model="groq-llama3"`, `mode="campaign"`. -/
def generate_campaign (groq : GroqOracle) (req : ChatRequest) :
    Except HTTPException Response :=
  match ask_groq groq req.message campaignPrompt with
  | .ok reply =>
      .ok [("reply", .str reply),
           ("model", .str "groq-llama3"),
           ("mode", .str "campaign")]
  | .error e => .error ⟨500, e⟩

/-- `POST /pitch`: always the pitch prompt, provider A, fixed metadata
`model="gemini-1.5-flash"`, `mode="pitch"`. -/
def generate_pitch (gemini : GeminiOracle) (req : ChatRequest) :
    Except HTTPException Response :=
  match ask_gemini gemini req.message pitchPrompt with
  | .ok reply =>
      .ok [("reply", .str reply),
           ("model", .str "gemini-1.5-flash"),
           ("mode", .str "pitch")]
  | .error e => .error ⟨500, e⟩

/-- The f-string prompt assembled by `score_lead` from the four lead
fields. -/
def leadPromptText (req : LeadRequest) : String :=
  "Lead Details:\n- Company: " ++ req.company ++
  "\n- Industry: " ++ req.industry ++
  "\n- Interactions this week: " ++ toString req.interactions ++
  "\n- Budget signal: " ++ req.budget_signal ++
  "\nAnalyze and score this lead."

/-- `POST /score-lead`: format the lead text block, use the leads prompt,
call provider B, return reply/model and the echoed input under `lead`
(note: no `mode` field in this response). -/
def score_lead (groq : GroqOracle) (req : LeadRequest) :
    Except HTTPException Response :=
  match ask_groq groq (leadPromptText req) leadsPrompt with
  | .ok reply =>
      .ok [("reply", .str reply),
           ("model", .str "groq-llama3"),
           ("lead", req.dict)]
  | .error e => .error ⟨500, e⟩

/-- `POST /analyze-market`: wrap the message in the fixed
analysis-request sentence, use the chat prompt, call provider A, return
`mode="market"`.  The request's `mode` field is never read. -/
def analyze_market (gemini : GeminiOracle) (req : ChatRequest) :
    Except HTTPException Response :=
  let prompt := "Provide a market analysis for: " ++ req.message ++
    ". Include trends, opportunities, and competitor landscape."
  match ask_gemini gemini prompt chatPrompt with
  | .ok reply =>
      .ok [("reply", .str reply),
           ("model", .str "gemini-1.5-flash"),
           ("mode", .str "market")]
  | .error e => .error ⟨500, e⟩

/-- Python truthiness of `os.getenv(...)`: `None` and the empty string
are falsy, every other string is truthy. -/
def envTruthy : Option String → Bool
  | none => false
  | some s => s ≠ ""

/-- The module-level startup check:
`if not GEMINI_API_KEY or not GROQ_API_KEY: raise RuntimeError(...)`.
`.error` is the raised `RuntimeError` (the process refuses to start);
`.ok ()` means module import proceeds to serving. -/
def startup (gemini_key groq_key : Option String) : Except String Unit :=
  if !envTruthy gemini_key || !envTruthy groq_key then
    .error "❌ Missing API keys! Create a .env file with GEMINI_API_KEY and GROQ_API_KEY"
  else
    .ok ()

/-- One inbound HTTP request to any of the application's endpoints. -/
inductive Request where
  | rootR : Request
  | chatR : ChatRequest → Request
  | campaignR : ChatRequest → Request
  | pitchR : ChatRequest → Request
  | scoreLeadR : LeadRequest → Request
  | marketR : ChatRequest → Request

/-- State-threaded semantics of one request against the server, the state
being the system-prompt table.  Every handler body in the source only
reads `SYSTEM_PROMPTS` (a `.get`, or an indexing with a literal key) and
contains no assignment to it or to any of its entries, so each handler's
effect on the table is the identity; the response component is the
handler's return value. -/
def handle (gemini : GeminiOracle) (groq : GroqOracle)
    (table : List (String × String)) (req : Request) :
    Except HTTPException Response × List (String × String) :=
  match req with
  | .rootR => (.ok root, table)
  | .chatR r => (chat gemini r, table)
  | .campaignR r => (generate_campaign groq r, table)
  | .pitchR r => (generate_pitch gemini r, table)
  | .scoreLeadR r => (score_lead groq r, table)
  | .marketR r => (analyze_market gemini r, table)

/-- Serve a sequence of requests, threading the prompt table through, and
return the final table. -/
def serve (gemini : GeminiOracle) (groq : GroqOracle)
    (table : List (String × String)) : List Request → List (String × String)
  | [] => table
  | req :: rest => serve gemini groq (handle gemini groq table req).2 rest

/-! ## Helper lemmas -/

lemma string_append_assoc (a b c : String) : a ++ b ++ c = a ++ (b ++ c) := by
  apply String.ext
  simp [String.data_append]

lemma lookup_unrecognized (m : String)
    (h : m ∉ ["chat", "campaign", "pitch", "leads"]) :
    SYSTEM_PROMPTS.lookup m = none := by
  simp only [List.mem_cons, not_or, List.not_mem_nil] at h
  obtain ⟨h1, h2, h3, h4, -⟩ := h
  rw [SYSTEM_PROMPTS]
  rw [List.lookup, List.lookup, List.lookup, List.lookup, List.lookup]
  rw [beq_eq_false_iff_ne.mpr h1, beq_eq_false_iff_ne.mpr h2,
      beq_eq_false_iff_ne.mpr h3, beq_eq_false_iff_ne.mpr h4]

lemma chat_def (g : GeminiOracle) (req : ChatRequest) :
    chat g req =
      match g (((SYSTEM_PROMPTS.lookup req.mode).getD chatPrompt) ++
          "\n\nUser: " ++ req.message) with
      | .ok reply =>
          .ok [("reply", .str reply),
               ("model", .str "gemini-1.5-flash"),
               ("mode", .str req.mode)]
      | .error e => .error ⟨500, e⟩ := rfl

lemma generate_campaign_def (gq : GroqOracle) (req : ChatRequest) :
    generate_campaign gq req =
      match gq ⟨"llama3-8b-8192", [("system", campaignPrompt), ("user", req.message)],
          600, 7/10⟩ with
      | .ok reply =>
          .ok [("reply", .str reply),
               ("model", .str "groq-llama3"),
               ("mode", .str "campaign")]
      | .error e => .error ⟨500, e⟩ := rfl

lemma generate_pitch_def (g : GeminiOracle) (req : ChatRequest) :
    generate_pitch g req =
      match g (pitchPrompt ++ "\n\nUser: " ++ req.message) with
      | .ok reply =>
          .ok [("reply", .str reply),
               ("model", .str "gemini-1.5-flash"),
               ("mode", .str "pitch")]
      | .error e => .error ⟨500, e⟩ := rfl

lemma score_lead_def (gq : GroqOracle) (req : LeadRequest) :
    score_lead gq req =
      match gq ⟨"llama3-8b-8192", [("system", leadsPrompt), ("user", leadPromptText req)],
          600, 7/10⟩ with
      | .ok reply =>
          .ok [("reply", .str reply),
               ("model", .str "groq-llama3"),
               ("lead", req.dict)]
      | .error e => .error ⟨500, e⟩ := rfl

lemma analyze_market_def (g : GeminiOracle) (req : ChatRequest) :
    analyze_market g req =
      match g (chatPrompt ++ "\n\nUser: " ++
          ("Provide a market analysis for: " ++ req.message ++
           ". Include trends, opportunities, and competitor landscape.")) with
      | .ok reply =>
          .ok [("reply", .str reply),
               ("model", .str "gemini-1.5-flash"),
               ("mode", .str "market")]
      | .error e => .error ⟨500, e⟩ := rfl

lemma handle_snd (g : GeminiOracle) (gq : GroqOracle)
    (table : List (String × String)) (req : Request) :
    (handle g gq table req).2 = table := by
  cases req <;> rfl

lemma serve_preserves (g : GeminiOracle) (gq : GroqOracle) :
    ∀ (reqs : List Request) (table : List (String × String)),
      serve g gq table reqs = table
  | [], _ => rfl
  | req :: rest, table => by
      rw [serve, handle_snd]
      exact serve_preserves g gq rest table

/-! ## Claim theorems -/

/-- C1: the /chat endpoint selects the system prompt by looking up the
request's mode in the prompt table — each recognized mode in
{chat, campaign, pitch, leads} maps to its fixed system prompt, every
unrecognized mode string falls back to the chat prompt — and a /chat
request with mode "pitch" sends provider A the pitch system prompt
together with the user text, with the response's mode field equal to
"pitch". -/
theorem chat_prompt_selection :
    (∀ (g : GeminiOracle) (req : ChatRequest),
      chat g req =
        match g (((SYSTEM_PROMPTS.lookup req.mode).getD chatPrompt) ++
            "\n\nUser: " ++ req.message) with
        | .ok reply =>
            .ok [("reply", .str reply),
                 ("model", .str "gemini-1.5-flash"),
                 ("mode", .str req.mode)]
        | .error e => .error ⟨500, e⟩) ∧
    SYSTEM_PROMPTS.lookup "chat" = some chatPrompt ∧
    SYSTEM_PROMPTS.lookup "campaign" = some campaignPrompt ∧
    SYSTEM_PROMPTS.lookup "pitch" = some pitchPrompt ∧
    SYSTEM_PROMPTS.lookup "leads" = some leadsPrompt ∧
    (∀ m : String, m ∉ ["chat", "campaign", "pitch", "leads"] →
      (SYSTEM_PROMPTS.lookup m).getD chatPrompt = chatPrompt) ∧
    (∀ (g : GeminiOracle) (reply : String),
      g (pitchPrompt ++ "\n\nUser: hi") = .ok reply →
      chat g ⟨"hi", "pitch"⟩ =
        .ok [("reply", .str reply),
             ("model", .str "gemini-1.5-flash"),
             ("mode", .str "pitch")]) := by
  refine ⟨chat_def, rfl, rfl, rfl, rfl, ?_, ?_⟩
  · intro m h
    rw [lookup_unrecognized m h]
    rfl
  · intro g reply h
    rw [chat_def]
    have h' : g (((SYSTEM_PROMPTS.lookup (ChatRequest.mk "hi" "pitch").mode).getD
        chatPrompt) ++ "\n\nUser: " ++ (ChatRequest.mk "hi" "pitch").message) =
        .ok reply := h
    rw [h']

/-- C1 witness: the prompt lookup with the unrecognized mode "negotiation"
falls back to the chat prompt, and the pitch-mode scenario returns the
pitch response with the echoed mode. -/
theorem chat_prompt_selection_witness :
    (SYSTEM_PROMPTS.lookup "negotiation").getD chatPrompt = chatPrompt ∧
    chat (fun _ => .ok "done") ⟨"hi", "pitch"⟩ =
      .ok [("reply", .str "done"),
           ("model", .str "gemini-1.5-flash"),
           ("mode", .str "pitch")] :=
  ⟨chat_prompt_selection.2.2.2.2.2.1 "negotiation" (by decide),
   chat_prompt_selection.2.2.2.2.2.2 (fun _ => .ok "done") "done" rfl⟩

/-- C2: for each of the five provider-calling endpoints, if the provider
call raises an exception the endpoint returns HTTP 500 with the detail
field equal to the exception's message, and if the provider call succeeds
the endpoint returns a success, not an error. -/
theorem endpoints_surface_provider_errors :
    ∀ (g : GeminiOracle) (gq : GroqOracle) (creq : ChatRequest)
      (lreq : LeadRequest) (e reply : String),
    (g (((SYSTEM_PROMPTS.lookup creq.mode).getD chatPrompt) ++
        "\n\nUser: " ++ creq.message) = .error e →
      chat g creq = .error ⟨500, e⟩) ∧
    (g (((SYSTEM_PROMPTS.lookup creq.mode).getD chatPrompt) ++
        "\n\nUser: " ++ creq.message) = .ok reply →
      chat g creq =
        .ok [("reply", .str reply), ("model", .str "gemini-1.5-flash"),
             ("mode", .str creq.mode)]) ∧
    (gq ⟨"llama3-8b-8192", [("system", campaignPrompt), ("user", creq.message)],
        600, 7/10⟩ = .error e →
      generate_campaign gq creq = .error ⟨500, e⟩) ∧
    (gq ⟨"llama3-8b-8192", [("system", campaignPrompt), ("user", creq.message)],
        600, 7/10⟩ = .ok reply →
      generate_campaign gq creq =
        .ok [("reply", .str reply), ("model", .str "groq-llama3"),
             ("mode", .str "campaign")]) ∧
    (g (pitchPrompt ++ "\n\nUser: " ++ creq.message) = .error e →
      generate_pitch g creq = .error ⟨500, e⟩) ∧
    (g (pitchPrompt ++ "\n\nUser: " ++ creq.message) = .ok reply →
      generate_pitch g creq =
        .ok [("reply", .str reply), ("model", .str "gemini-1.5-flash"),
             ("mode", .str "pitch")]) ∧
    (gq ⟨"llama3-8b-8192", [("system", leadsPrompt), ("user", leadPromptText lreq)],
        600, 7/10⟩ = .error e →
      score_lead gq lreq = .error ⟨500, e⟩) ∧
    (gq ⟨"llama3-8b-8192", [("system", leadsPrompt), ("user", leadPromptText lreq)],
        600, 7/10⟩ = .ok reply →
      score_lead gq lreq =
        .ok [("reply", .str reply), ("model", .str "groq-llama3"),
             ("lead", lreq.dict)]) ∧
    (g (chatPrompt ++ "\n\nUser: " ++
        ("Provide a market analysis for: " ++ creq.message ++
         ". Include trends, opportunities, and competitor landscape.")) = .error e →
      analyze_market g creq = .error ⟨500, e⟩) ∧
    (g (chatPrompt ++ "\n\nUser: " ++
        ("Provide a market analysis for: " ++ creq.message ++
         ". Include trends, opportunities, and competitor landscape.")) = .ok reply →
      analyze_market g creq =
        .ok [("reply", .str reply), ("model", .str "gemini-1.5-flash"),
             ("mode", .str "market")]) := by
  intro g gq creq lreq e reply
  refine ⟨?_, ?_, ?_, ?_, ?_, ?_, ?_, ?_, ?_, ?_⟩ <;> intro h
  · rw [chat_def, h]
  · rw [chat_def, h]
  · rw [generate_campaign_def, h]
  · rw [generate_campaign_def, h]
  · rw [generate_pitch_def, h]
  · rw [generate_pitch_def, h]
  · rw [score_lead_def, h]
  · rw [score_lead_def, h]
  · rw [analyze_market_def, h]
  · rw [analyze_market_def, h]

/-- C2 witness: with a provider that raises "boom", every endpoint returns
HTTP 500 with detail "boom"; with a provider that returns "fine", every
endpoint returns a success. -/
theorem endpoints_surface_provider_errors_witness :
    chat (fun _ => .error "boom") ⟨"hi", "chat"⟩ = .error ⟨500, "boom"⟩ ∧
    chat (fun _ => .ok "fine") ⟨"hi", "chat"⟩ =
      .ok [("reply", .str "fine"), ("model", .str "gemini-1.5-flash"),
           ("mode", .str "chat")] ∧
    generate_campaign (fun _ => .error "boom") ⟨"hi", "chat"⟩ = .error ⟨500, "boom"⟩ ∧
    generate_campaign (fun _ => .ok "fine") ⟨"hi", "chat"⟩ =
      .ok [("reply", .str "fine"), ("model", .str "groq-llama3"),
           ("mode", .str "campaign")] ∧
    generate_pitch (fun _ => .error "boom") ⟨"hi", "chat"⟩ = .error ⟨500, "boom"⟩ ∧
    generate_pitch (fun _ => .ok "fine") ⟨"hi", "chat"⟩ =
      .ok [("reply", .str "fine"), ("model", .str "gemini-1.5-flash"),
           ("mode", .str "pitch")] ∧
    score_lead (fun _ => .error "boom") ⟨"Acme", "SaaS", 5, "high"⟩ =
      .error ⟨500, "boom"⟩ ∧
    score_lead (fun _ => .ok "fine") ⟨"Acme", "SaaS", 5, "high"⟩ =
      .ok [("reply", .str "fine"), ("model", .str "groq-llama3"),
           ("lead", LeadRequest.dict ⟨"Acme", "SaaS", 5, "high"⟩)] ∧
    analyze_market (fun _ => .error "boom") ⟨"hi", "chat"⟩ = .error ⟨500, "boom"⟩ ∧
    analyze_market (fun _ => .ok "fine") ⟨"hi", "chat"⟩ =
      .ok [("reply", .str "fine"), ("model", .str "gemini-1.5-flash"),
           ("mode", .str "market")] :=
  ⟨(endpoints_surface_provider_errors (fun _ => .error "boom") (fun _ => .error "boom")
      ⟨"hi", "chat"⟩ ⟨"Acme", "SaaS", 5, "high"⟩ "boom" "fine").1 rfl,
   (endpoints_surface_provider_errors (fun _ => .ok "fine") (fun _ => .ok "fine")
      ⟨"hi", "chat"⟩ ⟨"Acme", "SaaS", 5, "high"⟩ "boom" "fine").2.1 rfl,
   (endpoints_surface_provider_errors (fun _ => .error "boom") (fun _ => .error "boom")
      ⟨"hi", "chat"⟩ ⟨"Acme", "SaaS", 5, "high"⟩ "boom" "fine").2.2.1 rfl,
   (endpoints_surface_provider_errors (fun _ => .ok "fine") (fun _ => .ok "fine")
      ⟨"hi", "chat"⟩ ⟨"Acme", "SaaS", 5, "high"⟩ "boom" "fine").2.2.2.1 rfl,
   (endpoints_surface_provider_errors (fun _ => .error "boom") (fun _ => .error "boom")
      ⟨"hi", "chat"⟩ ⟨"Acme", "SaaS", 5, "high"⟩ "boom" "fine").2.2.2.2.1 rfl,
   (endpoints_surface_provider_errors (fun _ => .ok "fine") (fun _ => .ok "fine")
      ⟨"hi", "chat"⟩ ⟨"Acme", "SaaS", 5, "high"⟩ "boom" "fine").2.2.2.2.2.1 rfl,
   (endpoints_surface_provider_errors (fun _ => .error "boom") (fun _ => .error "boom")
      ⟨"hi", "chat"⟩ ⟨"Acme", "SaaS", 5, "high"⟩ "boom" "fine").2.2.2.2.2.2.1 rfl,
   (endpoints_surface_provider_errors (fun _ => .ok "fine") (fun _ => .ok "fine")
      ⟨"hi", "chat"⟩ ⟨"Acme", "SaaS", 5, "high"⟩ "boom" "fine").2.2.2.2.2.2.2.1 rfl,
   (endpoints_surface_provider_errors (fun _ => .error "boom") (fun _ => .error "boom")
      ⟨"hi", "chat"⟩ ⟨"Acme", "SaaS", 5, "high"⟩ "boom" "fine").2.2.2.2.2.2.2.2.1 rfl,
   (endpoints_surface_provider_errors (fun _ => .ok "fine") (fun _ => .ok "fine")
      ⟨"hi", "chat"⟩ ⟨"Acme", "SaaS", 5, "high"⟩ "boom" "fine").2.2.2.2.2.2.2.2.2 rfl⟩

/-- C3 counterexample: a successful /score-lead response carries no
`mode` field at all, so it is false that every endpoint's successful
response contains both a `model` and a `mode` field. -/
theorem score_lead_response_has_no_mode_field :
    score_lead (fun _ => .ok "scored") ⟨"Acme", "SaaS", 5, "high"⟩ =
      .ok [("reply", .str "scored"),
           ("model", .str "groq-llama3"),
           ("lead", .obj [("company", .str "Acme"), ("industry", .str "SaaS"),
                          ("interactions", .int 5), ("budget_signal", .str "high")])] ∧
    List.lookup "mode"
      [("reply", Value.str "scored"),
       ("model", Value.str "groq-llama3"),
       ("lead", Value.obj [("company", Value.str "Acme"), ("industry", Value.str "SaaS"),
                           ("interactions", Value.int 5), ("budget_signal", Value.str "high")])] =
      none :=
  ⟨rfl, rfl⟩

/-- C3 (amended): every successful response carries the documented fixed
`model` value; chat, campaign, pitch and analyze-market additionally carry
the documented `mode` value (chat echoing the request's mode), while the
score-lead response carries no `mode` field. -/
theorem endpoint_metadata_fields :
    ∀ (g : GeminiOracle) (gq : GroqOracle) (creq : ChatRequest)
      (lreq : LeadRequest) (resp : Response),
    (chat g creq = .ok resp →
      resp.lookup "model" = some (.str "gemini-1.5-flash") ∧
      resp.lookup "mode" = some (.str creq.mode)) ∧
    (generate_campaign gq creq = .ok resp →
      resp.lookup "model" = some (.str "groq-llama3") ∧
      resp.lookup "mode" = some (.str "campaign")) ∧
    (generate_pitch g creq = .ok resp →
      resp.lookup "model" = some (.str "gemini-1.5-flash") ∧
      resp.lookup "mode" = some (.str "pitch")) ∧
    (score_lead gq lreq = .ok resp →
      resp.lookup "model" = some (.str "groq-llama3") ∧
      resp.lookup "mode" = none) ∧
    (analyze_market g creq = .ok resp →
      resp.lookup "model" = some (.str "gemini-1.5-flash") ∧
      resp.lookup "mode" = some (.str "market")) := by
  intro g gq creq lreq resp
  refine ⟨?_, ?_, ?_, ?_, ?_⟩
  · rw [chat_def]
    rcases g (((SYSTEM_PROMPTS.lookup creq.mode).getD chatPrompt) ++
        "\n\nUser: " ++ creq.message) with e | r <;> intro h
    · exact Except.noConfusion h
    · injection h with h
      subst h
      exact ⟨rfl, rfl⟩
  · rw [generate_campaign_def]
    rcases gq ⟨"llama3-8b-8192", [("system", campaignPrompt), ("user", creq.message)],
        600, 7/10⟩ with e | r <;> intro h
    · exact Except.noConfusion h
    · injection h with h
      subst h
      exact ⟨rfl, rfl⟩
  · rw [generate_pitch_def]
    rcases g (pitchPrompt ++ "\n\nUser: " ++ creq.message) with e | r <;> intro h
    · exact Except.noConfusion h
    · injection h with h
      subst h
      exact ⟨rfl, rfl⟩
  · rw [score_lead_def]
    rcases gq ⟨"llama3-8b-8192", [("system", leadsPrompt), ("user", leadPromptText lreq)],
        600, 7/10⟩ with e | r <;> intro h
    · exact Except.noConfusion h
    · injection h with h
      subst h
      exact ⟨rfl, rfl⟩
  · rw [analyze_market_def]
    rcases g (chatPrompt ++ "\n\nUser: " ++
        ("Provide a market analysis for: " ++ creq.message ++
         ". Include trends, opportunities, and competitor landscape.")) with e | r <;>
      intro h
    · exact Except.noConfusion h
    · injection h with h
      subst h
      exact ⟨rfl, rfl⟩

/-- C3 witness: concrete successful responses of the five endpoints have
the documented `model` and `mode` metadata (and no `mode` for
score-lead). -/
theorem endpoint_metadata_fields_witness :
    (List.lookup "model" [("reply", Value.str "fine"),
        ("model", Value.str "gemini-1.5-flash"), ("mode", Value.str "chat")] =
      some (Value.str "gemini-1.5-flash") ∧
     List.lookup "mode" [("reply", Value.str "fine"),
        ("model", Value.str "gemini-1.5-flash"), ("mode", Value.str "chat")] =
      some (Value.str "chat")) ∧
    (List.lookup "model" [("reply", Value.str "fine"),
        ("model", Value.str "groq-llama3"), ("mode", Value.str "campaign")] =
      some (Value.str "groq-llama3") ∧
     List.lookup "mode" [("reply", Value.str "fine"),
        ("model", Value.str "groq-llama3"), ("mode", Value.str "campaign")] =
      some (Value.str "campaign")) ∧
    (List.lookup "model" [("reply", Value.str "fine"),
        ("model", Value.str "gemini-1.5-flash"), ("mode", Value.str "pitch")] =
      some (Value.str "gemini-1.5-flash") ∧
     List.lookup "mode" [("reply", Value.str "fine"),
        ("model", Value.str "gemini-1.5-flash"), ("mode", Value.str "pitch")] =
      some (Value.str "pitch")) ∧
    (List.lookup "model" [("reply", Value.str "fine"),
        ("model", Value.str "groq-llama3"),
        ("lead", LeadRequest.dict ⟨"Acme", "SaaS", 5, "high"⟩)] =
      some (Value.str "groq-llama3") ∧
     List.lookup "mode" [("reply", Value.str "fine"),
        ("model", Value.str "groq-llama3"),
        ("lead", LeadRequest.dict ⟨"Acme", "SaaS", 5, "high"⟩)] = none) ∧
    (List.lookup "model" [("reply", Value.str "fine"),
        ("model", Value.str "gemini-1.5-flash"), ("mode", Value.str "market")] =
      some (Value.str "gemini-1.5-flash") ∧
     List.lookup "mode" [("reply", Value.str "fine"),
        ("model", Value.str "gemini-1.5-flash"), ("mode", Value.str "market")] =
      some (Value.str "market")) :=
  ⟨(endpoint_metadata_fields (fun _ => .ok "fine") (fun _ => .ok "fine")
      ⟨"hi", "chat"⟩ ⟨"Acme", "SaaS", 5, "high"⟩ _).1 rfl,
   (endpoint_metadata_fields (fun _ => .ok "fine") (fun _ => .ok "fine")
      ⟨"hi", "chat"⟩ ⟨"Acme", "SaaS", 5, "high"⟩ _).2.1 rfl,
   (endpoint_metadata_fields (fun _ => .ok "fine") (fun _ => .ok "fine")
      ⟨"hi", "chat"⟩ ⟨"Acme", "SaaS", 5, "high"⟩ _).2.2.1 rfl,
   (endpoint_metadata_fields (fun _ => .ok "fine") (fun _ => .ok "fine")
      ⟨"hi", "chat"⟩ ⟨"Acme", "SaaS", 5, "high"⟩ _).2.2.2.1 rfl,
   (endpoint_metadata_fields (fun _ => .ok "fine") (fun _ => .ok "fine")
      ⟨"hi", "chat"⟩ ⟨"Acme", "SaaS", 5, "high"⟩ _).2.2.2.2 rfl⟩

/-- C4: a successful /score-lead response's `lead` field is exactly the
input object, with all four pydantic fields in declaration order. -/
theorem score_lead_echoes_input :
    ∀ (gq : GroqOracle) (lreq : LeadRequest) (resp : Response),
    (score_lead gq lreq = .ok resp → resp.lookup "lead" = some lreq.dict) ∧
    lreq.dict = .obj [("company", .str lreq.company),
                      ("industry", .str lreq.industry),
                      ("interactions", .int lreq.interactions),
                      ("budget_signal", .str lreq.budget_signal)] := by
  intro gq lreq resp
  refine ⟨?_, rfl⟩
  rw [score_lead_def]
  rcases gq ⟨"llama3-8b-8192", [("system", leadsPrompt), ("user", leadPromptText lreq)],
      600, 7/10⟩ with e | r <;> intro h
  · exact Except.noConfusion h
  · injection h with h
    subst h
    rfl

/-- C4 witness: the concrete lead ("Acme", "SaaS", 5, "high") is echoed
exactly under `lead` in the successful response. -/
theorem score_lead_echoes_input_witness :
    List.lookup "lead"
      [("reply", Value.str "scored"), ("model", Value.str "groq-llama3"),
       ("lead", LeadRequest.dict ⟨"Acme", "SaaS", 5, "high"⟩)] =
      some (LeadRequest.dict ⟨"Acme", "SaaS", 5, "high"⟩) :=
  (score_lead_echoes_input (fun _ => .ok "scored") ⟨"Acme", "SaaS", 5, "high"⟩ _).1 rfl

/-- C5: /score-lead assembles the fixed-layout lead text block, sends it
as the user message to provider B with the leads system prompt, and the
assembled block contains each of the four input field values verbatim. -/
theorem score_lead_prompt_assembly :
    ∀ (gq : GroqOracle) (lreq : LeadRequest),
    (score_lead gq lreq =
      match gq ⟨"llama3-8b-8192",
          [("system", leadsPrompt), ("user", leadPromptText lreq)], 600, 7/10⟩ with
      | .ok reply =>
          .ok [("reply", .str reply), ("model", .str "groq-llama3"),
               ("lead", lreq.dict)]
      | .error e => .error ⟨500, e⟩) ∧
    leadPromptText lreq =
      "Lead Details:\n- Company: " ++ lreq.company ++
      "\n- Industry: " ++ lreq.industry ++
      "\n- Interactions this week: " ++ toString lreq.interactions ++
      "\n- Budget signal: " ++ lreq.budget_signal ++
      "\nAnalyze and score this lead." ∧
    (∃ pre post, leadPromptText lreq = pre ++ lreq.company ++ post) ∧
    (∃ pre post, leadPromptText lreq = pre ++ lreq.industry ++ post) ∧
    (∃ pre post, leadPromptText lreq = pre ++ toString lreq.interactions ++ post) ∧
    (∃ pre post, leadPromptText lreq = pre ++ lreq.budget_signal ++ post) := by
  intro gq lreq
  refine ⟨score_lead_def gq lreq, rfl, ?_, ?_, ?_, ?_⟩
  · exact ⟨"Lead Details:\n- Company: ",
      "\n- Industry: " ++ lreq.industry ++
      "\n- Interactions this week: " ++ toString lreq.interactions ++
      "\n- Budget signal: " ++ lreq.budget_signal ++
      "\nAnalyze and score this lead.",
      by simp [leadPromptText, string_append_assoc]⟩
  · exact ⟨"Lead Details:\n- Company: " ++ lreq.company ++ "\n- Industry: ",
      "\n- Interactions this week: " ++ toString lreq.interactions ++
      "\n- Budget signal: " ++ lreq.budget_signal ++
      "\nAnalyze and score this lead.",
      by simp [leadPromptText, string_append_assoc]⟩
  · exact ⟨"Lead Details:\n- Company: " ++ lreq.company ++ "\n- Industry: " ++
      lreq.industry ++ "\n- Interactions this week: ",
      "\n- Budget signal: " ++ lreq.budget_signal ++
      "\nAnalyze and score this lead.",
      by simp [leadPromptText, string_append_assoc]⟩
  · exact ⟨"Lead Details:\n- Company: " ++ lreq.company ++ "\n- Industry: " ++
      lreq.industry ++ "\n- Interactions this week: " ++ toString lreq.interactions ++
      "\n- Budget signal: ",
      "\nAnalyze and score this lead.",
      by simp [leadPromptText, string_append_assoc]⟩

/-- C6: /analyze-market wraps the message in the fixed analysis-request
sentence, sends it to provider A under the chat system prompt, returns
mode "market" on success, and ignores the request's mode field. -/
theorem analyze_market_behavior :
    ∀ (g : GeminiOracle) (req : ChatRequest),
    (analyze_market g req =
      match g (chatPrompt ++ "\n\nUser: " ++
          ("Provide a market analysis for: " ++ req.message ++
           ". Include trends, opportunities, and competitor landscape.")) with
      | .ok reply =>
          .ok [("reply", .str reply), ("model", .str "gemini-1.5-flash"),
               ("mode", .str "market")]
      | .error e => .error ⟨500, e⟩) ∧
    (∀ m : String, analyze_market g ⟨req.message, m⟩ = analyze_market g req) :=
  fun g req => ⟨analyze_market_def g req, fun _ => rfl⟩

/-- C7: both provider-B call sites — /campaign and /score-lead — invoke
provider B with model identifier "llama3-8b-8192", max_tokens 600,
temperature 0.7, the selected system prompt as the system message and the
assembled user text as the user message. -/
theorem groq_call_parameters :
    ∀ (gq : GroqOracle) (creq : ChatRequest) (lreq : LeadRequest),
    (generate_campaign gq creq =
      match gq ⟨"llama3-8b-8192",
          [("system", campaignPrompt), ("user", creq.message)], 600, 7/10⟩ with
      | .ok reply =>
          .ok [("reply", .str reply), ("model", .str "groq-llama3"),
               ("mode", .str "campaign")]
      | .error e => .error ⟨500, e⟩) ∧
    (score_lead gq lreq =
      match gq ⟨"llama3-8b-8192",
          [("system", leadsPrompt), ("user", leadPromptText lreq)], 600, 7/10⟩ with
      | .ok reply =>
          .ok [("reply", .str reply), ("model", .str "groq-llama3"),
               ("lead", lreq.dict)]
      | .error e => .error ⟨500, e⟩) :=
  fun gq creq lreq => ⟨generate_campaign_def gq creq, score_lead_def gq lreq⟩

/-- C8 counterexample: with both secret values present in the environment
but the first one the empty string, the startup check still raises, so it
is false that startup proceeds whenever both values are present. -/
theorem startup_present_but_empty_key_fails :
    startup (some "") (some "real-key") =
      .error "❌ Missing API keys! Create a .env file with GEMINI_API_KEY and GROQ_API_KEY" ∧
    startup (some "") (some "real-key") ≠ .ok () :=
  ⟨rfl, fun h => Except.noConfusion h⟩

/-- C8 (amended): startup raises the missing-keys error, refusing to
start, when either secret value is absent from the environment or is the
empty string; it proceeds when both are present and nonempty. -/
theorem startup_requires_nonempty_keys :
    ∀ gemini_key groq_key : Option String,
    ((gemini_key = none ∨ gemini_key = some "" ∨
      groq_key = none ∨ groq_key = some "") →
      startup gemini_key groq_key =
        .error "❌ Missing API keys! Create a .env file with GEMINI_API_KEY and GROQ_API_KEY") ∧
    (∀ gk qk : String, gemini_key = some gk → groq_key = some qk →
      gk ≠ "" → qk ≠ "" → startup gemini_key groq_key = .ok ()) := by
  intro gemini_key groq_key
  constructor
  · rintro (rfl | rfl | rfl | rfl) <;>
      simp [startup, envTruthy]
  · rintro gk qk rfl rfl hgk hqk
    simp [startup, envTruthy, hgk, hqk]

/-- C8 witness: startup with the first key absent refuses to start, and
startup with two nonempty keys proceeds. -/
theorem startup_requires_nonempty_keys_witness :
    startup none (some "qk-1") =
      .error "❌ Missing API keys! Create a .env file with GEMINI_API_KEY and GROQ_API_KEY" ∧
    startup (some "gk-1") (some "qk-1") = .ok () :=
  ⟨(startup_requires_nonempty_keys none (some "qk-1")).1 (Or.inl rfl),
   (startup_requires_nonempty_keys (some "gk-1") (some "qk-1")).2 "gk-1" "qk-1"
     rfl rfl (by decide) (by decide)⟩

/-- C9: the system-prompt table is never mutated by request handling —
after serving any sequence of requests the table is still exactly
`SYSTEM_PROMPTS` and every mode still looks up to its original prompt
string. -/
theorem prompt_table_never_mutated :
    ∀ (g : GeminiOracle) (gq : GroqOracle) (reqs : List Request),
    serve g gq SYSTEM_PROMPTS reqs = SYSTEM_PROMPTS ∧
    ∀ m : String,
      (serve g gq SYSTEM_PROMPTS reqs).lookup m = SYSTEM_PROMPTS.lookup m :=
  fun g gq reqs =>
    ⟨serve_preserves g gq reqs SYSTEM_PROMPTS,
     fun _ => by rw [serve_preserves g gq reqs SYSTEM_PROMPTS]⟩

/-- C10: for a chat request whose mode is not in the prompt table, the
fallback affects only the system prompt sent to provider A (the chat
prompt is used), while the successful response's mode field echoes the
unrecognized input string itself, which is never "chat". -/
theorem chat_unrecognized_mode_echoes_input :
    ∀ (g : GeminiOracle) (req : ChatRequest),
    SYSTEM_PROMPTS.lookup req.mode = none →
    req.mode ≠ "chat" ∧
    (chat g req =
      match g (chatPrompt ++ "\n\nUser: " ++ req.message) with
      | .ok reply =>
          .ok [("reply", .str reply), ("model", .str "gemini-1.5-flash"),
               ("mode", .str req.mode)]
      | .error e => .error ⟨500, e⟩) ∧
    (∀ resp : Response, chat g req = .ok resp →
      resp.lookup "mode" = some (.str req.mode)) := by
  intro g req h
  refine ⟨?_, ?_, ?_⟩
  · intro he
    rw [he] at h
    exact absurd h (by decide)
  · rw [chat_def, h]
    rfl
  · intro resp
    rw [chat_def, h]
    show (match g (chatPrompt ++ "\n\nUser: " ++ req.message) with
      | .ok reply =>
          (.ok [("reply", .str reply), ("model", .str "gemini-1.5-flash"),
               ("mode", .str req.mode)] : Except HTTPException Response)
      | .error e => .error ⟨500, e⟩) = .ok resp → _
    rcases g (chatPrompt ++ "\n\nUser: " ++ req.message) with e | r <;> intro hr
    · exact Except.noConfusion hr
    · injection hr with hr
      subst hr
      rfl

/-- C10 witness: a chat request with the unrecognized mode "sales" gets
the chat system prompt sent to the provider but its response echoes mode
"sales". -/
theorem chat_unrecognized_mode_echoes_input_witness :
    chat (fun _ => .ok "fine") ⟨"hi", "sales"⟩ =
      .ok [("reply", .str "fine"), ("model", .str "gemini-1.5-flash"),
           ("mode", .str "sales")] ∧
    List.lookup "mode"
      [("reply", Value.str "fine"), ("model", Value.str "gemini-1.5-flash"),
       ("mode", Value.str "sales")] = some (Value.str "sales") := by
  have h := chat_unrecognized_mode_echoes_input (fun _ => .ok "fine")
    ⟨"hi", "sales"⟩ (by decide)
  exact ⟨by rw [h.2.1], h.2.2 _ rfl⟩

end MarketMind
